import Mathlib

/-!
Verification development for the `randonious_the_adventurer` repository.

The Python sources are shallowly embedded: mutable object state becomes
explicit state records, `async` methods become pure state transformers,
and external effects (HTTP requests, the wall clock, log output) are made
explicit as inputs/outputs of the transformers.
-/

/-! ## Data model (`assistant.py`, `huggingchat.py` constants) -/

/-- A turn entry, `Prompt` from `assistant.py`: `{author, content}`. -/
structure Prompt where
  author : String
  content : String
deriving DecidableEq

/-- `USER_MESSAGE_TOKEN` from `huggingchat.py`. -/
def USER_MESSAGE_TOKEN : String := "<|user|>"

/-- `ASSISTANT_MESSAGE_TOKEN` from `huggingchat.py`. -/
def ASSISTANT_MESSAGE_TOKEN : String := "<|assistant|>"

/-- `SEP_TOKEN` from `huggingchat.py`. -/
def SEP_TOKEN : String := "</s>"

/-- `PREPROMPT_SEP` from `huggingchat.py`. -/
def PREPROMPT_SEP : String := "\n-----\n"

/-- `Parameters.max_new_tokens` from `huggingchat.py`. -/
def max_new_tokens : Nat := 1024

/-- Log events emitted by the adapter, abstracting the message strings of
`MessageTemplates` in `huggingchat.py`. -/
inductive LogEvent where
  | postFailed
  | postFailedStatus (code : Nat)
  | newChatFailed (i n : Nat)
deriving DecidableEq

/-- The mutable state of a `HuggingChat` instance that the history and
prompt-building methods touch: `_raw_history`, `_chat_history`,
`_split_history`, `_preprompt`, `_chat_id`. -/
structure AdapterState where
  raw_history : List Prompt
  chat_history : List String
  split_history : List String
  preprompt : String
  chat_id : Option String
deriving DecidableEq

/-! ## `HuggingChat` history and prompt building -/

/-- One iteration of the loop in `HuggingChat._format_prompts`:
`f"{token}{prompt.content}{SEP_TOKEN}"` with the author-dependent token. -/
def formatPrompt (p : Prompt) : String :=
  (if p.author = "assistant" then ASSISTANT_MESSAGE_TOKEN else USER_MESSAGE_TOKEN)
    ++ p.content ++ SEP_TOKEN

/-- `HuggingChat._format_prompts`: the loop accumulates one formatted string
per prompt, in order. -/
def formatPrompts (prompts : List Prompt) : List String :=
  prompts.map formatPrompt

/-- Helper for `splitSpace`: accumulates the current word (reversed). -/
def splitSpaceAux : List Char → List Char → List String
  | [], acc => [String.mk acc.reverse]
  | c :: rest, acc =>
    if c = ' ' then String.mk acc.reverse :: splitSpaceAux rest []
    else splitSpaceAux rest (c :: acc)

/-- Python `s.split(" ")`: split on every single space, keeping empty pieces
(so `"".split(" ") == [""]` and `"a  b".split(" ") == ["a", "", "b"]`). -/
def splitSpace (s : String) : List String :=
  splitSpaceAux s.data []

/-- Python `" ".join(l)`. -/
def joinSpace : List String → String
  | [] => ""
  | [s] => s
  | s :: rest => s ++ " " ++ joinSpace rest

/-- `HuggingChat._update_history`.  In the source,
`self._raw_history.extend(prompts)` appends, then
`self._chat_history = self._format_prompts(prompts)` *assigns* (replacing the
previous formatted history), then `self._split_history.extend(*new_splits)`
unpacks `new_splits` as positional arguments of `list.extend`, which takes
exactly one argument: the call raises `TypeError` unless `prompts` has exactly
one element.  The returned `Bool` is `false` when that `TypeError` is raised;
the first two mutations have already happened at that point. -/
def updateHistory (st : AdapterState) (prompts : List Prompt) : AdapterState × Bool :=
  let raw := st.raw_history ++ prompts
  let chat_hist := formatPrompts prompts
  let newSplits := chat_hist.map splitSpace
  match newSplits with
  | [s] =>
      ({ st with raw_history := raw, chat_history := chat_hist,
                 split_history := st.split_history ++ s }, true)
  | _ =>
      ({ st with raw_history := raw, chat_history := chat_hist }, false)

/-- Python list slicing `l[-n:]` for `n > 0`: the last `min n (length l)`
elements. -/
def lastN (n : Nat) (l : List α) : List α :=
  l.drop (l.length - n)

/-- `HuggingChat._build_prompt`: `preprompt + PREPROMPT_SEP`, then
`" ".join(self._split_history[-Parameters.max_new_tokens:])` followed by
`ASSISTANT_MESSAGE_TOKEN`. -/
def buildPrompt (st : AdapterState) : String :=
  let preprompt := st.preprompt ++ PREPROMPT_SEP
  let prompt_body :=
    joinSpace (lastN max_new_tokens st.split_history)
      ++ ASSISTANT_MESSAGE_TOKEN
  preprompt ++ prompt_body

/-- `HuggingChat._clear_prompts`: resets the three histories to empty and the
preprompt to the default template (a parameter here, since the template file is
loaded from disk).  `_chat_id` is not touched. -/
def clearPrompts (st : AdapterState) (defaultPreprompt : String) : AdapterState :=
  { st with raw_history := [], chat_history := [], split_history := [],
            preprompt := defaultPreprompt }

/-- `HuggingChat.set_preprompt`. -/
def set_preprompt (st : AdapterState) (p : String) : AdapterState :=
  { st with preprompt := p }

/-! ## `HuggingChat` response parsing and the `chat` method -/

/-- One line of the streamed response body, as seen after
`json.loads(resp_line[1:-1])` in `HuggingChat._parse_response`: either the
JSON parse fails (`badJson`), or the object has a `generated_text` field, an
`error` field, or neither. -/
inductive StreamLine where
  | genText (s : String)
  | errorField (e : String)
  | otherObj
  | badJson
deriving DecidableEq

/-- The outcome of `session.post` in `HuggingChat._request_response`: either
the transport raises, or an HTTP response with a status code and a streamed
body arrives. -/
inductive ChatOutcome where
  | netError
  | response (status : Nat) (lines : List StreamLine)
deriving DecidableEq

/-- The line loop of `HuggingChat._parse_response`: `generated_text`
fragments accumulate into `out`; an `error` field raises immediately
(discarding partial output); a JSON parse failure raises; other objects are
skipped. -/
def parseLines : List StreamLine → String → Except String String
  | [], out => .ok out
  | .genText s :: rest, out => parseLines rest (out ++ s)
  | .errorField e :: _, _ => .error e
  | .otherObj :: rest, out => parseLines rest out
  | .badJson :: _, _ => .error "JSONDecodeError"

/-- `HuggingChat._parse_response`: a non-200 status only logs an error
message; the body is parsed regardless. -/
def parseResponse (status : Nat) (lines : List StreamLine) :
    List LogEvent × Except String String :=
  (if status ≠ 200 then [LogEvent.postFailedStatus status] else [],
   parseLines lines "")

/-- Result of one call to `HuggingChat.chat`: the adapter state afterwards,
the returned reply, the log events emitted, and whether the call itself raised
(which happens only via the `TypeError` of `_update_history`, outside the
`try` block). -/
structure ChatResult where
  state : AdapterState
  reply : String
  logs : List LogEvent
  raised : Bool
deriving DecidableEq

/-- `HuggingChat.chat`: update history with the new turns (may raise), build
the prompt, request a response; on any exception log `post_failed` and keep
`resp = ""`; otherwise append the assistant turn; the `finally` block returns
`resp` in all non-raising paths. -/
def chat (st : AdapterState) (prompts : List Prompt) (outcome : ChatOutcome) :
    ChatResult :=
  match updateHistory st prompts with
  | (st1, false) => { state := st1, reply := "", logs := [], raised := true }
  | (st1, true) =>
    match outcome with
    | .netError =>
        { state := st1, reply := "", logs := [.postFailed], raised := false }
    | .response status lines =>
      match parseResponse status lines with
      | (statusLogs, .error _) =>
          { state := st1, reply := "",
            logs := statusLogs ++ [.postFailed], raised := false }
      | (statusLogs, .ok resp) =>
          { state := (updateHistory st1 [⟨"assistant", resp⟩]).1,
            reply := resp, logs := statusLogs, raised := false }

/-- Whether the exchange of a `chat` call fails by one of: transport
exception, JSON parse failure, or a protocol-level `error` record. -/
def exchangeFails : ChatOutcome → Bool
  | .netError => true
  | .response _ lines =>
    match parseLines lines "" with
    | .error _ => true
    | .ok _ => false

/-! ## `HuggingChat` session start -/

/-- `HuggingChat._set_session`: the reachability probe `session.get` either
succeeds or raises (the exception is logged and re-raised, modeled as
`none`). -/
def setSession (st : AdapterState) (probeOk : Bool) : Option AdapterState :=
  if probeOk then some st else none

/-- The body of one iteration of the loop in `HuggingChat._new_chat`, plus the
loop structure: `attempts i` is the outcome of the `i`-th POST/parse (`none`
models an exception).  The `return` statement inside the `finally` block exits
the *function* at the end of the first iteration, so any remaining indices are
never visited.  Returns the conversation id obtained (if any), the number of
attempts actually made, and the log events emitted. -/
def newChatLoop (attempts : Nat → Option String) :
    List Nat → Option String × Nat × List LogEvent
  | [] => (none, 0, [])
  | i :: _ =>
    match attempts i with
    | some cid => (some cid, 1, [])
    | none => (none, 1, [.newChatFailed (i + 1) 3])

/-- `HuggingChat._new_chat`: `tries = 3`, `for i in range(tries)`. -/
def newChat (attempts : Nat → Option String) :
    Option String × Nat × List LogEvent :=
  newChatLoop attempts (List.range 3)

/-- `HuggingChat.__aenter__`: `_clear_prompts`, then `_set_session` (raises on
probe failure), then `_new_chat` (sets `_chat_id` only if an attempt
succeeded). -/
def aenter (st : AdapterState) (defaultPreprompt : String) (probeOk : Bool)
    (attempts : Nat → Option String) : Option AdapterState :=
  let st1 := clearPrompts st defaultPreprompt
  match setSession st1 probeOk with
  | none => none
  | some st2 =>
    match (newChat attempts).1 with
    | some cid => some { st2 with chat_id := some cid }
    | none => some st2

/-- `HuggingChat.ainit`: `await self.__aenter__()`. -/
def ainit (st : AdapterState) (defaultPreprompt : String) (probeOk : Bool)
    (attempts : Nat → Option String) : Option AdapterState :=
  aenter st defaultPreprompt probeOk attempts

/-! ## `HuggingChat` throttling (timed model)

Wall-clock time is modeled as `Nat` milliseconds.  `asyncio.sleep` is exact;
`datetime.now()` at a program point is the current model time. -/

/-- `self._throttle_time = timedelta(milliseconds=500)`. -/
def throttle_time : Nat := 500

/-- `self._time_of_last_prompt`. -/
structure ThrottleState where
  time_of_last_prompt : Nat
deriving DecidableEq

/-- `HuggingChat._throttle`, entered at model time `now`: sleep for the
remaining deficit if the elapsed time since `_time_of_last_prompt` is below
`_throttle_time`, then set `_time_of_last_prompt` to the (new) current time.
Returns the time at which the call finishes together with the new state. -/
def throttle (now : Nat) (st : ThrottleState) : Nat × ThrottleState :=
  let dt := now - st.time_of_last_prompt
  if dt < throttle_time then
    let wake := now + (throttle_time - dt)
    (wake, ⟨wake⟩)
  else
    (now, ⟨now⟩)

/-- The timing skeleton of `HuggingChat.chat`, entered at `callTime`: the
outbound POST is issued immediately (at `callTime`) and takes `reqDur`
milliseconds; whatever the outcome, the `finally` block then runs
`_throttle`.  Returns the time the request was issued, the time the call
returns, and the throttle state afterwards.  The `ok` flag (request success)
does not influence any of the three: the `finally` block runs on success and
failure alike. -/
def chatTimed (callTime reqDur : Nat) (ok : Bool) (st : ThrottleState) :
    Nat × Nat × ThrottleState :=
  let requestTime := callTime
  let afterRequest := callTime + reqDur
  let r := throttle afterRequest st
  (requestTime, r.1, r.2)

/-! ## Aggregator loop (`adventurer.py`) -/

/-- The outcome of the `await self._conversation.chat(queue)` call inside
`Adventurer._send_prompts`: either a reply string, or an exception. -/
inductive ExchangeOutcome where
  | ok (resp : String)
  | raises
deriving DecidableEq

/-- The observable effects of one cycle of `Adventurer._conversation_loop`. -/
structure CycleResult where
  snapshot : List Prompt
  sent : List Prompt
  broadcasts : List String
  queueAfter : List Prompt
  rescheduled : Bool
  errorLogged : Bool
deriving DecidableEq

/-- One cycle of `Adventurer._conversation_loop` together with
`Adventurer._send_prompts`, starting from live queue `live`:

* during the 5 s `asyncio.sleep`, the entries `arrivalsBefore` are appended by
  interleaved `chat`/`_add_to_queue` calls;
* `queue = [e for e in self._conversation_queue]` snapshots the queue;
* `_send_prompts` returns immediately if the snapshot is empty (no exchange,
  no suspension point, so no interleaving);
* otherwise `await self._conversation.chat(queue)` is a suspension point at
  which `arrivalsDuring` are appended to the live queue;
* on a normal return, the response is logged, `_clear_queue` *reassigns* the
  live queue to `[]` (discarding `arrivalsDuring`), and the callbacks are
  invoked with the reply;
* on an exception, the error is caught and logged and the queue is left as is;
* the `finally` block reschedules the loop in every case. -/
def cycle (live arrivalsBefore arrivalsDuring : List Prompt)
    (outcome : ExchangeOutcome) : CycleResult :=
  let q1 := live ++ arrivalsBefore
  let snapshot := q1
  if snapshot.isEmpty then
    { snapshot := snapshot, sent := [], broadcasts := [], queueAfter := q1,
      rescheduled := true, errorLogged := false }
  else
    match outcome with
    | .ok resp =>
        { snapshot := snapshot, sent := snapshot, broadcasts := [resp],
          queueAfter := [], rescheduled := true, errorLogged := false }
    | .raises =>
        { snapshot := snapshot, sent := [], broadcasts := [],
          queueAfter := q1 ++ arrivalsDuring, rescheduled := true,
          errorLogged := true }

/-! ## Logger hub (`logger.py`) -/

/-- `LogLevel` from `logger.py`. -/
inductive LogLevel where
  | Info
  | Debug
  | Error
  | All
deriving DecidableEq

/-- The subscription registry of `Logger`: `self.subscribers` is a dict
mapping each level to a Python `set` of callbacks (modeled as a `Finset` over
an arbitrary callback type with decidable equality). -/
structure LoggerState (Cb : Type) where
  subscribers : LogLevel → Finset Cb

/-- `Logger.subscribe`: `self.subscribers[level].add(cb)`. -/
def subscribe [DecidableEq Cb] (st : LoggerState Cb) (cb : Cb)
    (level : LogLevel) : LoggerState Cb :=
  ⟨fun l => if l = level then insert cb (st.subscribers l)
            else st.subscribers l⟩

/-- The set of callbacks `Logger.log` iterates over for a message of level
`msgLevel`: `self.subscribers[message.level].union(self.subscribers[LogLevel.All])`.
Each element of this set is awaited exactly once. -/
def logTargets [DecidableEq Cb] (st : LoggerState Cb) (msgLevel : LogLevel) :
    Finset Cb :=
  st.subscribers msgLevel ∪ st.subscribers LogLevel.All

/-! ## Helper lemmas -/

/-- The assistant start token is not a prefix of any string beginning with the
user start token (the two tokens differ at character index 2). -/
lemma assistant_token_not_pre_user (l : List Char) :
    ¬ ASSISTANT_MESSAGE_TOKEN.data <+: USER_MESSAGE_TOKEN.data ++ l := by
  intro h
  obtain ⟨t, ht⟩ := h
  have hA : ASSISTANT_MESSAGE_TOKEN.data
      = ['<', '|', 'a', 's', 's', 'i', 's', 't', 'a', 'n', 't', '|', '>'] := rfl
  have hU : USER_MESSAGE_TOKEN.data
      = ['<', '|', 'u', 's', 'e', 'r', '|', '>'] := rfl
  rw [hA, hU] at ht
  simp only [List.cons_append, List.cons.injEq] at ht
  exact absurd ht.2.2.1 (by decide)

/-- The user start token is not a prefix of any string beginning with the
assistant start token. -/
lemma user_token_not_pre_assistant (l : List Char) :
    ¬ USER_MESSAGE_TOKEN.data <+: ASSISTANT_MESSAGE_TOKEN.data ++ l := by
  intro h
  obtain ⟨t, ht⟩ := h
  have hA : ASSISTANT_MESSAGE_TOKEN.data
      = ['<', '|', 'a', 's', 's', 'i', 's', 't', 'a', 'n', 't', '|', '>'] := rfl
  have hU : USER_MESSAGE_TOKEN.data
      = ['<', '|', 'u', 's', 'e', 'r', '|', '>'] := rfl
  rw [hA, hU] at ht
  simp only [List.cons_append, List.cons.injEq] at ht
  exact absurd ht.2.2.1 (by decide)

/-- Behavior of `_throttle` when entered at or after the stored timestamp:
the stored timestamp afterwards equals the return time, and the return time
is at least `throttle_time` past the previous timestamp and not before the
entry time. -/
lemma throttle_spec (now : Nat) (st : ThrottleState)
    (h : st.time_of_last_prompt ≤ now) :
    (throttle now st).2.time_of_last_prompt = (throttle now st).1
    ∧ (throttle now st).1 ≥ st.time_of_last_prompt + throttle_time
    ∧ (throttle now st).1 ≥ now := by
  unfold throttle throttle_time
  by_cases hd : now - st.time_of_last_prompt < 500 <;> simp [hd] <;> omega

/-- Every branch of `cycle` snapshots the live queue as of the wake-up. -/
lemma cycle_snapshot_eq (live a b : List Prompt) (o : ExchangeOutcome) :
    (cycle live a b o).snapshot = live ++ a := by
  cases o <;> unfold cycle <;>
    by_cases h : (live ++ a).isEmpty <;> simp [h]

/-- Every branch of `cycle` reschedules the loop. -/
lemma cycle_rescheduled_eq (live a b : List Prompt) (o : ExchangeOutcome) :
    (cycle live a b o).rescheduled = true := by
  cases o <;> unfold cycle <;>
    by_cases h : (live ++ a).isEmpty <;> simp [h]

/-! ## Claim theorems -/

/-- C6 (confirmed): the outbound prompt is
`preprompt + separator + last-N-words + assistant-start-token`, and the
history portion is a suffix of the sliding window with at most
`max_new_tokens = 1024` words, regardless of the total history size. -/
theorem build_prompt_sliding_window (st : AdapterState) :
    buildPrompt st
      = st.preprompt ++ PREPROMPT_SEP
          ++ joinSpace (lastN max_new_tokens st.split_history)
          ++ ASSISTANT_MESSAGE_TOKEN
    ∧ (lastN max_new_tokens st.split_history).length ≤ max_new_tokens
    ∧ lastN max_new_tokens st.split_history <:+ st.split_history := by
  refine ⟨?_, ?_, ?_⟩
  · simp [buildPrompt, String.append_assoc]
  · simp only [lastN, List.length_drop]
    omega
  · exact List.drop_suffix _ _

/-- C7 (confirmed): every cycle of the aggregator loop reschedules itself,
whatever the exchange outcome; a raising exchange is caught and logged (it can
only raise when the snapshot was non-empty, hence the `isEmpty` guard); and
the following cycle snapshots the then-current queue afresh. -/
theorem conversation_loop_self_healing
    (live arrivalsBefore arrivalsDuring arrivalsBefore2 arrivalsDuring2 :
      List Prompt) (o o2 : ExchangeOutcome) :
    (cycle live arrivalsBefore arrivalsDuring o).rescheduled = true
    ∧ (cycle live arrivalsBefore arrivalsDuring ExchangeOutcome.raises).errorLogged
        = !(live ++ arrivalsBefore).isEmpty
    ∧ (cycle live arrivalsBefore arrivalsDuring ExchangeOutcome.raises).broadcasts = []
    ∧ (cycle (cycle live arrivalsBefore arrivalsDuring o).queueAfter
          arrivalsBefore2 arrivalsDuring2 o2).snapshot
        = (cycle live arrivalsBefore arrivalsDuring o).queueAfter
            ++ arrivalsBefore2 := by
  refine ⟨cycle_rescheduled_eq _ _ _ _, ?_, ?_, cycle_snapshot_eq _ _ _ _⟩
  · unfold cycle
    by_cases h : (live ++ arrivalsBefore).isEmpty <;> simp [h]
  · unfold cycle
    by_cases h : (live ++ arrivalsBefore).isEmpty <;> simp [h]

/-- C8 (confirmed): a formatted turn starts with the assistant start token
exactly when its author is `"assistant"`, and with the user start token
exactly when it is anything else; the formatted turn is the start token, the
content, and the shared end token. -/
theorem format_prompt_roundtrip (p : Prompt) :
    (ASSISTANT_MESSAGE_TOKEN.data <+: (formatPrompt p).data
        ↔ p.author = "assistant")
    ∧ (USER_MESSAGE_TOKEN.data <+: (formatPrompt p).data
        ↔ p.author ≠ "assistant")
    ∧ formatPrompt p
        = (if p.author = "assistant" then ASSISTANT_MESSAGE_TOKEN
           else USER_MESSAGE_TOKEN) ++ p.content ++ SEP_TOKEN := by
  by_cases h : p.author = "assistant"
  · have hdata : (formatPrompt p).data
        = ASSISTANT_MESSAGE_TOKEN.data ++ (p.content.data ++ SEP_TOKEN.data) := by
      simp [formatPrompt, h, List.append_assoc]
    refine ⟨⟨fun _ => h, fun _ => ?_⟩, ⟨fun hpre => ?_, fun hne => absurd h hne⟩, rfl⟩
    · rw [hdata]; exact List.prefix_append _ _
    · rw [hdata] at hpre
      exact absurd hpre (user_token_not_pre_assistant _)
  · have hdata : (formatPrompt p).data
        = USER_MESSAGE_TOKEN.data ++ (p.content.data ++ SEP_TOKEN.data) := by
      simp [formatPrompt, h, List.append_assoc]
    refine ⟨⟨fun hpre => ?_, fun ha => absurd ha h⟩, ⟨fun _ => h, fun _ => ?_⟩, rfl⟩
    · rw [hdata] at hpre
      exact absurd hpre (assistant_token_not_pre_user _)
    · rw [hdata]; exact List.prefix_append _ _

/-- C9 (confirmed): the subscription registry is a set per level, so
subscribing the same callback twice at the same level equals subscribing it
once; and `log` iterates the deduplicating union of the message-level set and
the wildcard set, so a callback in both is invoked exactly once. -/
theorem logger_subscribe_idempotent_union {Cb : Type} [DecidableEq Cb]
    (st : LoggerState Cb) (cb : Cb) (level msgLevel : LogLevel)
    (h1 : cb ∈ st.subscribers msgLevel)
    (h2 : cb ∈ st.subscribers LogLevel.All) :
    subscribe (subscribe st cb level) cb level = subscribe st cb level
    ∧ (logTargets st msgLevel).val.count cb = 1 := by
  constructor
  · unfold subscribe
    congr 1
    funext l
    by_cases hl : l = level <;> simp [hl, Finset.insert_idem]
  · have hmem : cb ∈ logTargets st msgLevel := Finset.mem_union_left _ h1
    exact Multiset.count_eq_one_of_mem (logTargets st msgLevel).nodup hmem

/-- Witness for `logger_subscribe_idempotent_union` at a concrete registry. -/
theorem logger_subscribe_idempotent_union_witness :
    subscribe (subscribe (⟨fun _ => {0}⟩ : LoggerState Nat) 0 LogLevel.Info)
        0 LogLevel.Info
      = subscribe (⟨fun _ => {0}⟩ : LoggerState Nat) 0 LogLevel.Info
    ∧ (logTargets (⟨fun _ => {0}⟩ : LoggerState Nat) LogLevel.Info).val.count 0
        = 1 :=
  logger_subscribe_idempotent_union ⟨fun _ => {0}⟩ 0 LogLevel.Info LogLevel.Info
    (by decide) (by decide)

/-- C10 (confirmed): whenever session start (`__aenter__`, also reached via
`ainit`) succeeds, the adapter state it produces has all three histories
empty and the preprompt equal to the default template, regardless of the
starting state and of any preprompt previously stored with `set_preprompt`;
`_clear_prompts` runs before the connection steps, which do not touch these
fields. -/
theorem aenter_resets_state (st : AdapterState) (p defaultPreprompt : String)
    (probeOk : Bool) (attempts : Nat → Option String) (st1 : AdapterState)
    (h : aenter (set_preprompt st p) defaultPreprompt probeOk attempts
          = some st1) :
    st1.raw_history = [] ∧ st1.chat_history = [] ∧ st1.split_history = []
    ∧ st1.preprompt = defaultPreprompt
    ∧ ainit (set_preprompt st p) defaultPreprompt probeOk attempts
        = aenter (set_preprompt st p) defaultPreprompt probeOk attempts := by
  refine ⟨?_, ?_, ?_, ?_, rfl⟩ <;>
  · by_cases hp : probeOk
    · cases hc : (newChat attempts).1 <;>
        simp [aenter, setSession, hp, hc, clearPrompts, set_preprompt] at h <;>
        simp [← h]
    · simp [aenter, setSession, hp] at h

/-- Witness for `aenter_resets_state` at a concrete dirty starting state. -/
theorem aenter_resets_state_witness :
    (⟨[], [], [], "d", some "c"⟩ : AdapterState).raw_history = []
    ∧ (⟨[], [], [], "d", some "c"⟩ : AdapterState).chat_history = []
    ∧ (⟨[], [], [], "d", some "c"⟩ : AdapterState).split_history = []
    ∧ (⟨[], [], [], "d", some "c"⟩ : AdapterState).preprompt = "d"
    ∧ ainit (set_preprompt ⟨[⟨"u", "x"⟩], ["y"], ["z"], "old", none⟩ "p0")
          "d" true (fun _ => some "c")
        = aenter (set_preprompt ⟨[⟨"u", "x"⟩], ["y"], ["z"], "old", none⟩ "p0")
          "d" true (fun _ => some "c") :=
  aenter_resets_state ⟨[⟨"u", "x"⟩], ["y"], ["z"], "old", none⟩ "p0" "d" true
    (fun _ => some "c") ⟨[], [], [], "d", some "c"⟩ (by decide)

/-- C1 (counterexample): with one entry `a` in the queue and entry `b`
enqueued while a successful exchange is in flight, `b` is absent from the
cycle's snapshot (as the claim says) but the live queue after the cycle is
empty — `_clear_queue` runs *after* the exchange — so `b` is also absent from
the next cycle's snapshot: it is lost, refuting the claim. -/
theorem drain_clear_timing_counterexample :
    (⟨"user", "b"⟩ : Prompt)
        ∉ (cycle [⟨"user", "a"⟩] [] [⟨"user", "b"⟩]
            (ExchangeOutcome.ok "r")).snapshot
    ∧ (cycle [⟨"user", "a"⟩] [] [⟨"user", "b"⟩]
        (ExchangeOutcome.ok "r")).queueAfter = []
    ∧ (cycle (cycle [⟨"user", "a"⟩] [] [⟨"user", "b"⟩]
          (ExchangeOutcome.ok "r")).queueAfter [] []
        (ExchangeOutcome.ok "s")).snapshot = [] := by
  decide

/-- C1 (amended): the snapshot is taken at cycle start, but the live queue is
cleared only after a *successful* exchange, so entries enqueued during the
exchange are discarded by that clear (never sent); after a failed exchange
nothing is cleared, so the snapshotted entries remain queued (and are sent
again later) together with the arrivals. -/
theorem drain_clear_after_exchange
    (live arrivalsBefore arrivalsDuring : List Prompt) (resp : String) :
    (cycle live arrivalsBefore arrivalsDuring (ExchangeOutcome.ok resp)).queueAfter
        = []
    ∧ (cycle live arrivalsBefore arrivalsDuring (ExchangeOutcome.ok resp)).sent
        = (if (live ++ arrivalsBefore).isEmpty then []
           else live ++ arrivalsBefore)
    ∧ (cycle live arrivalsBefore arrivalsDuring ExchangeOutcome.raises).queueAfter
        = (if (live ++ arrivalsBefore).isEmpty then live ++ arrivalsBefore
           else live ++ arrivalsBefore ++ arrivalsDuring) := by
  by_cases h : live ++ arrivalsBefore = []
  · refine ⟨?_, ?_, ?_⟩ <;> simp [cycle, h]
  · have h2 : (live ++ arrivalsBefore).isEmpty = false := by
      simp [List.isEmpty_iff, h]
    refine ⟨?_, ?_, ?_⟩ <;> simp [cycle, h2]

/-- C2 (counterexample): after sending the turn `a` and then the turn `b`,
the token-formatted history holds only the formatting of `b` — new turns are
substituted, not appended, into `_chat_history` — refuting the claim that
every representation holds all previously sent turns followed by the new
ones. -/
theorem update_history_substitution_counterexample :
    (updateHistory (updateHistory ⟨[], [], [], "pre", none⟩
          [⟨"user", "a"⟩]).1 [⟨"user", "b"⟩]).1.chat_history
        = ["<|user|>b</s>"]
    ∧ (updateHistory (updateHistory ⟨[], [], [], "pre", none⟩
          [⟨"user", "a"⟩]).1 [⟨"user", "b"⟩]).1.chat_history
        ≠ formatPrompts [⟨"user", "a"⟩, ⟨"user", "b"⟩] := by
  decide

/-- C2 (amended): `_update_history` appends the new turns to the raw history,
*replaces* the token-formatted history with just the new turns' formatting,
and appends the new words to the sliding-window history only when exactly one
turn is passed — with any other number of turns `extend(*new_splits)` raises
`TypeError` (after the first two mutations have happened), leaving the
sliding window untouched. -/
theorem update_history_amended (st : AdapterState) (prompts : List Prompt) :
    (updateHistory st prompts).1.raw_history = st.raw_history ++ prompts
    ∧ (updateHistory st prompts).1.chat_history = formatPrompts prompts
    ∧ ((updateHistory st prompts).2 = true ↔ prompts.length = 1)
    ∧ (updateHistory st prompts).1.split_history
        = st.split_history
            ++ (if prompts.length = 1
                then ((formatPrompts prompts).map splitSpace).flatten
                else []) := by
  match prompts with
  | [] => simp [updateHistory, formatPrompts]
  | [p] => simp [updateHistory, formatPrompts]
  | p :: q :: rest => simp [updateHistory, formatPrompts]

/-- C3 (counterexample): adapter constructed at time 0; the first `chat` call
arrives at t = 600 ms and its request takes 1 ms, so `_throttle` (which runs
*after* the request) finds an elapsed time of 601 ms, sleeps not at all, and
returns at 601; a second `chat` call issued immediately sends its request at
t = 601 — only 1 ms after the previous request, far below the 500 ms minimum
interval the claim asserts. -/
theorem throttle_interval_counterexample :
    (chatTimed 600 1 true ⟨0⟩).1 = 600
    ∧ (chatTimed 600 1 true ⟨0⟩).2.1 = 601
    ∧ (chatTimed 601 1 true (chatTimed 600 1 true ⟨0⟩).2.2).1 = 601
    ∧ 601 - 600 < throttle_time := by
  decide

/-- C3 (amended): because `_throttle` runs in the `finally` block after the
request, what it enforces is that the *completion* times of consecutive send
calls (equivalently, consecutive `_time_of_last_prompt` updates) are at least
`throttle_time` apart — not the requests themselves, which are issued at call
start and can be arbitrarily close; the timestamp is updated at the end of
every call and equals the completion time, irrespective of the request's
success flag. -/
theorem throttle_completion_spacing (t1 d1 t2 d2 : Nat) (ok1 ok2 : Bool)
    (st : ThrottleState)
    (h1 : st.time_of_last_prompt ≤ t1)
    (h2 : (chatTimed t1 d1 ok1 st).2.1 ≤ t2) :
    (chatTimed t2 d2 ok2 (chatTimed t1 d1 ok1 st).2.2).2.1
        ≥ (chatTimed t1 d1 ok1 st).2.1 + throttle_time
    ∧ (chatTimed t1 d1 ok1 st).2.2.time_of_last_prompt
        = (chatTimed t1 d1 ok1 st).2.1
    ∧ chatTimed t1 d1 true st = chatTimed t1 d1 false st := by
  have hA := throttle_spec (t1 + d1) st (by omega)
  have hle : (throttle (t1 + d1) st).2.time_of_last_prompt ≤ t2 + d2 := by
    rw [hA.1]
    exact Nat.le_trans h2 (Nat.le_add_right _ _)
  have hB := throttle_spec (t2 + d2) (throttle (t1 + d1) st).2 hle
  refine ⟨?_, hA.1, rfl⟩
  show (throttle (t2 + d2) (throttle (t1 + d1) st).2).1
      ≥ (throttle (t1 + d1) st).1 + throttle_time
  have hB2 := hB.2.1
  rw [hA.1] at hB2
  exact hB2

/-- Witness for `throttle_completion_spacing` on a concrete two-call trace. -/
theorem throttle_completion_spacing_witness :
    (chatTimed 601 0 true (chatTimed 600 1 true ⟨0⟩).2.2).2.1
        ≥ (chatTimed 600 1 true ⟨0⟩).2.1 + throttle_time
    ∧ (chatTimed 600 1 true ⟨0⟩).2.2.time_of_last_prompt
        = (chatTimed 600 1 true ⟨0⟩).2.1
    ∧ chatTimed 600 1 true ⟨0⟩ = chatTimed 600 1 false ⟨0⟩ :=
  throttle_completion_spacing 600 1 601 0 true true ⟨0⟩ (by decide) (by decide)

/-- C4 (code bug): `_new_chat` declares `tries = 3` and loops over
`range(tries)`, but the `return` inside the `finally` block exits the function
at the end of the first iteration, so exactly one attempt is ever made —
even when the first attempt fails and a later one would have succeeded, no
conversation id is obtained and a single `(1/3)` failure is logged. -/
theorem new_chat_single_attempt (attempts : Nat → Option String) :
    (newChat attempts).2.1 = 1
    ∧ (newChat (fun i => if i = 0 then none else some "cid")).1 = none
    ∧ (newChat (fun i => if i = 0 then none else some "cid")).2.2
        = [LogEvent.newChatFailed 1 3] := by
  refine ⟨?_, by decide, by decide⟩
  have hr : List.range 3 = [0, 1, 2] := rfl
  unfold newChat
  rw [hr]
  cases h : attempts 0 <;> simp [newChatLoop, h]

/-- C5 (counterexample): a response with HTTP status 500 whose body still
parses to a `generated_text` record makes `chat` return that text, append an
assistant turn to the raw history, and log only the status message — refuting
the claim that a non-200 status yields an empty reply with no assistant
append. -/
theorem chat_non200_counterexample :
    (chat ⟨[], [], [], "pre", none⟩ [⟨"user", "q"⟩]
        (ChatOutcome.response 500 [StreamLine.genText "hi"])).reply = "hi"
    ∧ (chat ⟨[], [], [], "pre", none⟩ [⟨"user", "q"⟩]
        (ChatOutcome.response 500 [StreamLine.genText "hi"])).state.raw_history
        = [⟨"user", "q"⟩, ⟨"assistant", "hi"⟩]
    ∧ (chat ⟨[], [], [], "pre", none⟩ [⟨"user", "q"⟩]
        (ChatOutcome.response 500 [StreamLine.genText "hi"])).logs
        = [LogEvent.postFailedStatus 500] := by
  decide

/-- C5 (amended): when the exchange fails by a transport exception, a JSON
parse failure, or a protocol-level `error` record, `chat` (called with a
single new turn; more than one raises beforehand, see `update_history_amended`)
logs the failure, returns the empty string, and appends no assistant turn to
any history; the user-side turn appended before the request remains.  A
non-200 status alone is logged but does not make the exchange fail. -/
theorem chat_failure_behavior (st : AdapterState) (p : Prompt)
    (o : ChatOutcome) (h : exchangeFails o = true) :
    (chat st [p] o).reply = ""
    ∧ (chat st [p] o).state.raw_history = st.raw_history ++ [p]
    ∧ (chat st [p] o).state.chat_history = [formatPrompt p]
    ∧ (chat st [p] o).state.split_history
        = st.split_history ++ splitSpace (formatPrompt p)
    ∧ LogEvent.postFailed ∈ (chat st [p] o).logs
    ∧ (chat st [p] o).raised = false := by
  cases o with
  | netError =>
      refine ⟨?_, ?_, ?_, ?_, ?_, ?_⟩ <;>
        simp [chat, updateHistory, formatPrompts]
  | response status lines =>
      cases hp : parseLines lines "" with
      | ok r => simp [exchangeFails, hp] at h
      | error e =>
          refine ⟨?_, ?_, ?_, ?_, ?_, ?_⟩ <;>
            simp [chat, updateHistory, formatPrompts, parseResponse, hp]

/-- Witness for `chat_failure_behavior` at a transport failure. -/
theorem chat_failure_behavior_witness :
    (chat ⟨[], [], [], "pre", none⟩ [⟨"user", "q"⟩] ChatOutcome.netError).reply
        = ""
    ∧ (chat ⟨[], [], [], "pre", none⟩ [⟨"user", "q"⟩]
        ChatOutcome.netError).state.raw_history = [] ++ [⟨"user", "q"⟩]
    ∧ (chat ⟨[], [], [], "pre", none⟩ [⟨"user", "q"⟩]
        ChatOutcome.netError).state.chat_history = [formatPrompt ⟨"user", "q"⟩]
    ∧ (chat ⟨[], [], [], "pre", none⟩ [⟨"user", "q"⟩]
        ChatOutcome.netError).state.split_history
        = [] ++ splitSpace (formatPrompt ⟨"user", "q"⟩)
    ∧ LogEvent.postFailed
        ∈ (chat ⟨[], [], [], "pre", none⟩ [⟨"user", "q"⟩]
            ChatOutcome.netError).logs
    ∧ (chat ⟨[], [], [], "pre", none⟩ [⟨"user", "q"⟩]
        ChatOutcome.netError).raised = false :=
  chat_failure_behavior ⟨[], [], [], "pre", none⟩ ⟨"user", "q"⟩
    ChatOutcome.netError (by decide)
